import Mathlib

/-!
Verification of the peer-to-peer call signaling engine of this repository
(`src/utils/webrtc-helper.js` and the call screens) against its
natural-language specification.

The JavaScript is shallowly embedded: the Firestore `calls` collection
becomes an association list from call id to `CallRecord`; each exported
function becomes a Lean function over that store, threading the store
explicitly and returning `Except` where the source throws.  Media streams
and peer connections are embedded as records holding exactly the state the
source reads or writes.
-/

namespace WebrtcHelper

/-- A session description, `{ type, sdp }` as stored in Firestore. -/
structure SessionDesc where
  type_ : String
  sdp : String
deriving DecidableEq, Repr

/-- One document of the `calls` collection (`calls/{callId}`). -/
structure CallRecord where
  offer : SessionDesc
  answer : Option SessionDesc
  createdBy : String
  answeredBy : Option String
  createdAt : Int
deriving DecidableEq, Repr

/-- The signaling store: the `calls` collection as an association list from
document id to record.  The most recently added binding shadows older ones,
matching a keyed document store. -/
def Store : Type := List (String × CallRecord)

instance : DecidableEq Store := by
  unfold Store
  infer_instance

/-- `getDoc`: first binding for the given id, if any. -/
def lookupRecord : Store → String → Option CallRecord
  | [], _ => none
  | (k, r) :: rest, id_ => if k = id_ then some r else lookupRecord rest id_

/-- `addDoc`: insert a fresh document under a store-allocated id. -/
def addRecord (s : Store) (id_ : String) (r : CallRecord) : Store :=
  (id_, r) :: s

/-- `updateDoc`: merge-update the document with the given id. -/
def updateRecord (s : Store) (id_ : String) (f : CallRecord → CallRecord) : Store :=
  s.map fun kr => if kr.1 = id_ then (kr.1, f kr.2) else kr

/-- `deleteDoc`: remove the document with the given id. -/
def deleteRecord (s : Store) (id_ : String) : Store :=
  s.filter fun kr => kr.1 ≠ id_

/-- A media track.  `enabled` is the mutable flag toggled by
`toggleAudio` / `toggleVideo`; `hasSwitchCamera` models whether the track
object carries the react-native-webrtc `_switchCamera` method;
`facingFront` is the camera facing that `_switchCamera` flips. -/
structure MTrack where
  enabled : Bool
  hasSwitchCamera : Bool
  facingFront : Bool
deriving DecidableEq, Repr

/-- A `MediaStream`, reduced to the state the helper reads:
`getAudioTracks()` and `getVideoTracks()` as lists (index 0 is the track
the helper mutates). -/
structure MediaStreamM where
  audioTracks : List MTrack
  videoTracks : List MTrack
deriving DecidableEq, Repr

/-- `toggleAudio(stream)` (webrtc-helper.js lines 218-226): null stream or
no audio track returns false and changes nothing; otherwise the first
audio track has its `enabled` flag negated and the function returns
`!audioTrack.enabled`, the muted state after the flip. -/
def toggleAudio : Option MediaStreamM → Option MediaStreamM × Bool
  | none => (none, false)
  | some s =>
    match s.audioTracks with
    | [] => (some s, false)
    | t :: rest =>
        let t2 : MTrack := { t with enabled := !t.enabled }
        (some { s with audioTracks := t2 :: rest }, !t2.enabled)

/-- `toggleVideo(stream)` (webrtc-helper.js lines 233-241): same pattern on
the first video track, but returns `videoTrack.enabled`, the enabled state
after the flip. -/
def toggleVideo : Option MediaStreamM → Option MediaStreamM × Bool
  | none => (none, false)
  | some s =>
    match s.videoTracks with
    | [] => (some s, false)
    | t :: rest =>
        let t2 : MTrack := { t with enabled := !t.enabled }
        (some { s with videoTracks := t2 :: rest }, t2.enabled)

/-- `switchCamera(stream)` (webrtc-helper.js lines 247-254): a total
function (the source path has no throw).  Null stream and missing video
track fall through; `videoTrack._switchCamera()` is invoked only when the
method is present, modelled as flipping the facing of the first video
track.  The returned Bool records whether a device switch was requested. -/
def switchCamera : Option MediaStreamM → Option MediaStreamM × Bool
  | none => (none, false)
  | some s =>
    match s.videoTracks with
    | [] => (some s, false)
    | t :: rest =>
        if t.hasSwitchCamera then
          (some { s with videoTracks := { t with facingFront := !t.facingFront } :: rest }, true)
        else
          (some s, false)

/-- The three-level quality signal of the quality-monitor effect. -/
inductive Quality where
  | good
  | medium
  | poor
deriving DecidableEq, Repr

/-- Numeric rank of a quality label; larger is better. -/
def Quality.rank : Quality → Nat
  | .poor => 0
  | .medium => 1
  | .good => 2

/-- The quality classification of the quality-monitor effect in the video
call screen (src/unnamed/part_007 lines 519-528): packetLoss over 5 or
roundTripTime over 300 ms gives poor, otherwise over 2 or over 150 ms
gives medium, otherwise good.  Stats values are modelled as rationals
since roundTripTime is a float (seconds times 1000). -/
def qualityOf (packetLoss roundTripTime : ℚ) : Quality :=
  if packetLoss > 5 ∨ roundTripTime > 300 then .poor
  else if packetLoss > 2 ∨ roundTripTime > 150 then .medium
  else .good

/-- An `RTCPeerConnection`, reduced to the descriptions the helper sets and
whether `close()` has been called. -/
structure PCState where
  localDescription : Option SessionDesc
  remoteDescription : Option SessionDesc
  closed : Bool
deriving DecidableEq, Repr

/-- `createCall(localStream)` (webrtc-helper.js lines 60-132).  The guard
`!localStream || !auth.currentUser` throws before any store access; on the
success path a peer connection is created, the offer (produced by the
transport, here a parameter) becomes the local description, and `addDoc`
persists `{offer, createdAt, createdBy}` under a store-allocated id.
Result: the store after the call, the peer connection if one was created,
and the returned call id or the thrown message. -/
def createCall (currentUser : Option String) (localStream : Option MediaStreamM)
    (offer : SessionDesc) (newCallId : String) (now : Int) (store : Store) :
    Store × Option PCState × Except String String :=
  match localStream, currentUser with
  | some _, some uid =>
      let pc : PCState := { localDescription := some offer, remoteDescription := none, closed := false }
      (addRecord store newCallId
        { offer := offer, answer := none, createdBy := uid, answeredBy := none, createdAt := now },
       some pc, .ok newCallId)
  | _, _ => (store, none, .error "Missing local stream or user not authenticated")

/-- `joinCall(callId, localStream)` (webrtc-helper.js lines 140-211).  The
guard `!callId || !localStream || !auth.currentUser` throws first; then
`getDoc` is consulted and a missing document throws `Call not found`
before any peer connection is created; on the success path the peer
connection takes the stored offer as remote description and the generated
answer (a parameter, produced by `createAnswer`) as local description, and
`updateDoc` merges `{answer, answeredBy}` into the record with no check of
an existing answer. -/
def joinCall (currentUser : Option String) (localStream : Option MediaStreamM)
    (callId : String) (answer : SessionDesc) (store : Store) :
    Store × Option PCState × Except String Unit :=
  match localStream, currentUser with
  | some _, some uid =>
      if callId = "" then
        (store, none, .error "Missing call ID, local stream, or user not authenticated")
      else
        match lookupRecord store callId with
        | none => (store, none, .error "Call not found")
        | some record =>
            let pc : PCState :=
              { localDescription := some answer, remoteDescription := some record.offer,
                closed := false }
            (updateRecord store callId
              (fun r => { r with answer := some answer, answeredBy := some uid }),
             some pc, .ok ())
  | _, _ => (store, none, .error "Missing call ID, local stream, or user not authenticated")

/-- `endCall(localStream, peerConnection, callId, isCaller)`
(webrtc-helper.js lines 263-282): the store is touched only under
`callId && isCaller` (a falsy — empty — callId skips deletion), where the
call document is deleted. -/
def endCallStore (store : Store) (callId : String) (isCaller : Bool) : Store :=
  if callId ≠ "" ∧ isCaller then deleteRecord store callId else store

/-- The `cleanup` closure returned by `createCall` (webrtc-helper.js lines
124-130): unsubscribes the listeners, closes the peer connection and
deletes the call document. -/
def createCallCleanup (store : Store) (pc : PCState) (callId : String) : Store × PCState :=
  (deleteRecord store callId, { pc with closed := true })

/-- The `cleanup` closure returned by `joinCall` (webrtc-helper.js lines
206-209): unsubscribes the candidate listener and closes the peer
connection; it performs no store write. -/
def joinCallCleanup (store : Store) (pc : PCState) : Store × PCState :=
  (store, { pc with closed := true })

/-- An event delivered to the caller-side snapshot listeners of
`createCall`: a remote (callee) ICE candidate arriving, or the call
document mutating with an answer present. -/
inductive SigEvent where
  | cand (payload : Nat)
  | answer
deriving DecidableEq, Repr

/-- The observable candidate state of one peer connection: `rd` is whether
a remote description has been set, `applied` the candidates that reached
`pc.addIceCandidate` in order, `lost` the candidates whose listener
callback threw before `addIceCandidate` was reached. -/
structure CandState where
  rd : Bool
  applied : List Nat
  lost : List Nat
deriving DecidableEq, Repr

/-- One event processed by the caller-side listeners of `createCall`
(webrtc-helper.js lines 99-118).  The document listener sets the remote
description when none is set and an answer is present; it constructs an
`RTCSessionDescription`, which the module imports (line 7), so this path
works.  The candidate listener first evaluates
`new RTCIceCandidate(change.doc.data())` (line 113); `RTCIceCandidate` is
absent from the import list (lines 4-9) and `registerGlobals` is never
called anywhere in the repository, so in this React Native runtime the
name does not resolve, the callback throws a ReferenceError before
`pc.addIceCandidate`, and the candidate is lost — whether or not the
remote description is set.  There is no queue and no retry. -/
def callerStep (st : CandState) : SigEvent → CandState
  | .answer => if st.rd then st else { st with rd := true }
  | .cand c => { st with lost := st.lost ++ [c] }

/-- The caller-side listener state after a sequence of deliveries. -/
def callerRun (st : CandState) : List SigEvent → CandState
  | [] => st
  | e :: es => callerRun (callerStep st e) es

/-- `joinCall` sets the remote description (line 165, via the imported
`RTCSessionDescription`) before attaching its candidate listener (lines
191-201), so the joiner-side listener starts with `rd` already true and
processes only candidate deliveries; its callback contains the same
unresolvable `new RTCIceCandidate` (line 196), throwing before
`pc.addIceCandidate` on every delivery. -/
def joinerRun (cands : List Nat) : CandState :=
  callerRun { rd := true, applied := [], lost := [] } (cands.map SigEvent.cand)

/-- All candidates of a delivery sequence, in order. -/
def candsAll : List SigEvent → List Nat
  | [] => []
  | .answer :: es => candsAll es
  | .cand c :: es => c :: candsAll es

/-- Whether a delivery sequence contains an answer event (after which the
remote description of the caller side is set). -/
def hasAnswer : List SigEvent → Bool
  | [] => false
  | .answer :: _ => true
  | .cand _ :: es => hasAnswer es

/-- The automatic-retry loop around `setupLocalStream` in the video call
screen (src/unnamed/part_003 lines 179-201), with the effect dependencies
held stable.  One effect runs `setupLocalStream()` whenever `retryCount`
changes while `retryCount < 3`; a second effect, when that attempt failed
(`webRTCError` set) and `retryCount < 3`, increments `retryCount` after a
delay, triggering the next attempt.  `fails n` is whether the acquisition
attempt at `retryCount = n` fails.  The first argument is recursion fuel
only; the loop is still terminated solely by the `retryCount < 3` guard of
the source, and fuel 4 exceeds the longest possible run. -/
def retryRunAux (fails : Nat → Bool) : Nat → Nat → Nat × Nat
  | 0, _ => (0, 0)
  | fuel + 1, c =>
      if c < 3 then
        if fails c then
          let rest := retryRunAux fails fuel (c + 1)
          (1 + rest.1, 1 + rest.2)
        else (1, 0)
      else (0, 0)

/-- Total `setupLocalStream` attempts and total failures surfaced through
`onError` (each failed attempt calls `onError`, part_003 line 161),
starting from the initial `retryCount = 0`. -/
def retryRun (fails : Nat → Bool) : Nat × Nat :=
  retryRunAux fails 4 0

/-- A call-history entry as produced by `getCallHistory`: document id,
record fields, and the role tag. -/
structure HistoryEntry where
  id_ : String
  record : CallRecord
  role : String
deriving DecidableEq, Repr

/-- In `getCallHistory` (webrtc-helper.js line 306 and 316) the identifier
`limit` resolves to the numeric parameter of the function — the Firestore
`limit` query helper is absent from the import list (lines 12-24) — so the
expression `limit(limit)` applies a number as a function and raises a
TypeError. -/
def applyLimitName (lim : Nat) : Except String (List HistoryEntry → List HistoryEntry) :=
  .error ("TypeError: " ++ toString lim ++ " is not a function")

/-- Descending order on `createdAt` used by the history merge sort
(webrtc-helper.js lines 335-339). -/
def laterFirst (a b : HistoryEntry) : Prop :=
  b.record.createdAt ≤ a.record.createdAt

instance : DecidableRel laterFirst := fun a b =>
  inferInstanceAs (Decidable (b.record.createdAt ≤ a.record.createdAt))

/-- `getCallHistory(limit)` (webrtc-helper.js lines 289-347).  An
unauthenticated user throws first.  Inside the try block the first query is
built by evaluating `where(..)`, `orderBy(..)` and `limit(limit)`; the last
raises (see `applyLimitName`), the catch block logs and rethrows
`Failed to fetch call history`, so the merge of created and answered
calls, the descending sort and the slice — embedded here on the branch
where `limit` would have been a function — are never reached. -/
def getCallHistory (currentUser : Option String) (lim : Nat) (store : Store) :
    Except String (List HistoryEntry) :=
  match currentUser with
  | none => .error "User not authenticated"
  | some uid =>
      match applyLimitName lim with
      | .error _ => .error "Failed to fetch call history"
      | .ok limitConstraint =>
          let created := (store.filter fun kr => kr.2.createdBy = uid).map
            fun kr => HistoryEntry.mk kr.1 kr.2 "creator"
          let answered := (store.filter fun kr => kr.2.answeredBy = some uid).map
            fun kr => HistoryEntry.mk kr.1 kr.2 "participant"
          .ok ((List.insertionSort laterFirst (limitConstraint created ++ limitConstraint answered)).take lim)

/-! ## Helper lemmas -/

theorem lookupRecord_delete (s : Store) (id_ : String) :
    lookupRecord (deleteRecord s id_) id_ = none := by
  induction s with
  | nil => rfl
  | cons kr rest ih =>
      by_cases h : kr.1 = id_
      · simpa [deleteRecord, h] using ih
      · simpa [deleteRecord, lookupRecord, h] using ih

theorem lookupRecord_update (s : Store) (id_ : String) (f : CallRecord → CallRecord) :
    lookupRecord (updateRecord s id_ f) id_ = (lookupRecord s id_).map f := by
  induction s with
  | nil => rfl
  | cons kr rest ih =>
      obtain ⟨k, r⟩ := kr
      by_cases h : k = id_
      · subst h
        show lookupRecord ((if k = k then (k, f r) else (k, r)) :: updateRecord rest k f) k = _
        rw [if_pos rfl]
        simp [lookupRecord]
      · show lookupRecord ((if k = id_ then (k, f r) else (k, r)) :: updateRecord rest id_ f) id_ = _
        rw [if_neg h]
        simpa [lookupRecord, h] using ih

theorem callerRun_eq (es : List SigEvent) (b : Bool) (app lost : List Nat) :
    callerRun ⟨b, app, lost⟩ es = ⟨b || hasAnswer es, app, lost ++ candsAll es⟩ := by
  induction es generalizing b lost with
  | nil => simp [callerRun, hasAnswer, candsAll]
  | cons e es ih =>
      cases e with
      | answer =>
          cases b <;> simp [callerRun, callerStep, hasAnswer, candsAll, ih]
      | cand c =>
          simp [callerRun, callerStep, hasAnswer, candsAll, ih]

theorem candsAll_map (cands : List Nat) :
    candsAll (cands.map SigEvent.cand) = cands := by
  induction cands with
  | nil => rfl
  | cons c cs ih => simp [candsAll, ih]

/-! ## Claim theorems -/

/-- C3: ending a call removes the CallRecord from the signaling store
exactly on the initiator side.  `endCall` with `isCaller = false` leaves
the store unchanged, with `isCaller = true` (and the nonempty callId the
initiator holds) it deletes the record, after which the lookup fails;
likewise the `cleanup` closure of `joinCall` performs no store write while
the `cleanup` closure of `createCall` deletes the record. -/
theorem cleanup_ownership (store : Store) (pc : PCState) (callId : String)
    (h : callId ≠ "") :
    endCallStore store callId false = store
    ∧ endCallStore store callId true = deleteRecord store callId
    ∧ lookupRecord (endCallStore store callId true) callId = none
    ∧ (joinCallCleanup store pc).1 = store
    ∧ (createCallCleanup store pc callId).1 = deleteRecord store callId
    ∧ lookupRecord (createCallCleanup store pc callId).1 callId = none := by
  refine ⟨by simp [endCallStore], by simp [endCallStore, h], ?_, rfl, rfl, ?_⟩
  · simp [endCallStore, h, lookupRecord_delete]
  · simpa [createCallCleanup] using lookupRecord_delete store callId

/-- Witness for C3 at a concrete store holding one record under id c1. -/
theorem cleanup_ownership_witness :
    endCallStore [("c1", ⟨⟨"offer", "sdp-o"⟩, none, "u1", none, 0⟩)] "c1" false
      = [("c1", ⟨⟨"offer", "sdp-o"⟩, none, "u1", none, 0⟩)]
    ∧ lookupRecord (endCallStore [("c1", ⟨⟨"offer", "sdp-o"⟩, none, "u1", none, 0⟩)] "c1" true) "c1"
      = none := by
  have h := cleanup_ownership [("c1", ⟨⟨"offer", "sdp-o"⟩, none, "u1", none, 0⟩)]
    ⟨none, none, false⟩ "c1" (by decide)
  exact ⟨h.1, h.2.2.1⟩

/-- C4: the quality classifier returns poor when packetLoss exceeds 5 or
roundTripTime exceeds 300 ms, medium when not poor but packetLoss exceeds
2 or roundTripTime exceeds 150 ms, and good otherwise; and it is monotone:
a sample with pointwise worse-or-equal metrics never receives a better
label. -/
theorem quality_thresholds_monotone (pl rtt pl2 rtt2 : ℚ) :
    (pl > 5 ∨ rtt > 300 → qualityOf pl rtt = .poor)
    ∧ (¬(pl > 5 ∨ rtt > 300) → (pl > 2 ∨ rtt > 150) → qualityOf pl rtt = .medium)
    ∧ (¬(pl > 5 ∨ rtt > 300) → ¬(pl > 2 ∨ rtt > 150) → qualityOf pl rtt = .good)
    ∧ (pl ≤ pl2 → rtt ≤ rtt2 →
        (qualityOf pl2 rtt2).rank ≤ (qualityOf pl rtt).rank) := by
  refine ⟨fun h => by simp [qualityOf, h], fun h1 h2 => by simp [qualityOf, h1, h2],
    fun h1 h2 => by simp [qualityOf, h1, h2], fun hpl hrtt => ?_⟩
  by_cases hA : pl > 5 ∨ rtt > 300
  · have hB : pl2 > 5 ∨ rtt2 > 300 := by
      rcases hA with h | h
      · exact Or.inl (lt_of_lt_of_le h hpl)
      · exact Or.inr (lt_of_lt_of_le h hrtt)
    simp [qualityOf, hA, hB]
  · by_cases hA2 : pl > 2 ∨ rtt > 150
    · have hB2 : pl2 > 2 ∨ rtt2 > 150 := by
        rcases hA2 with h | h
        · exact Or.inl (lt_of_lt_of_le h hpl)
        · exact Or.inr (lt_of_lt_of_le h hrtt)
      have hq : qualityOf pl rtt = .medium := by simp [qualityOf, hA, hA2]
      rw [hq]
      unfold qualityOf
      split_ifs with h1
      · simp [Quality.rank]
      · simp [Quality.rank]
    · have hq : qualityOf pl rtt = .good := by simp [qualityOf, hA, hA2]
      rw [hq]
      unfold qualityOf
      split_ifs <;> simp [Quality.rank]

/-- Witness for C4: a concrete worse sample is classified no better. -/
theorem quality_thresholds_monotone_witness :
    qualityOf 3 100 = .medium
    ∧ (qualityOf 6 400).rank ≤ (qualityOf 3 100).rank := by
  have h := quality_thresholds_monotone 3 100 6 400
  exact ⟨h.2.1 (by norm_num) (by norm_num), h.2.2.2 (by norm_num) (by norm_num)⟩

/-- C5: joining a channel id that resolves to no CallRecord fails with
`Call not found`, the store is returned unchanged (no write), and no peer
connection was created. -/
theorem join_stale_channel (uid : String) (s : MediaStreamM) (callId : String)
    (answer : SessionDesc) (store : Store)
    (h1 : callId ≠ "") (h2 : lookupRecord store callId = none) :
    joinCall (some uid) (some s) callId answer store
      = (store, none, .error "Call not found") := by
  simp [joinCall, h1, h2]

/-- Witness for C5: joining the id doesnotexist on an empty store. -/
theorem join_stale_channel_witness :
    joinCall (some "u1") (some ⟨[], []⟩) "doesnotexist" ⟨"answer", "sdp-a"⟩ []
      = ([], none, .error "Call not found") :=
  join_stale_channel "u1" ⟨[], []⟩ "doesnotexist" ⟨"answer", "sdp-a"⟩ [] (by decide) rfl

/-- C7: on a stream with an audio track, `toggleAudio` flips the enabled
flag of the first audio track and returns the resulting muted state — true
exactly when the new enabled flag is false; on a stream with a video
track, `toggleVideo` flips the enabled flag of the first video track and
returns the resulting enabled state — true exactly when the new enabled
flag is true. -/
theorem toggle_tracks_spec (s : MediaStreamM) :
    (∀ t rest, s.audioTracks = t :: rest →
      (toggleAudio (some s)).1
          = some { s with audioTracks := { t with enabled := !t.enabled } :: rest }
      ∧ ((toggleAudio (some s)).2 = true ↔ (!t.enabled) = false))
    ∧ (∀ t rest, s.videoTracks = t :: rest →
      (toggleVideo (some s)).1
          = some { s with videoTracks := { t with enabled := !t.enabled } :: rest }
      ∧ ((toggleVideo (some s)).2 = true ↔ (!t.enabled) = true)) := by
  obtain ⟨aud, vid⟩ := s
  constructor
  · intro t rest h
    simp only [MediaStreamM.audioTracks] at h
    subst h
    obtain ⟨te, ts, tf⟩ := t
    cases te <;> simp [toggleAudio]
  · intro t rest h
    simp only [MediaStreamM.videoTracks] at h
    subst h
    obtain ⟨te, ts, tf⟩ := t
    cases te <;> simp [toggleVideo]

/-- Witness for C7 on a concrete stream with one enabled audio track and
one enabled video track: audio ends muted, video ends disabled. -/
theorem toggle_tracks_spec_witness :
    (toggleAudio (some ⟨[⟨true, false, true⟩], [⟨true, true, true⟩]⟩)).1
      = some ⟨[⟨false, false, true⟩], [⟨true, true, true⟩]⟩
    ∧ ((toggleVideo (some ⟨[⟨true, false, true⟩], [⟨true, true, true⟩]⟩)).2 = true
        ↔ (!true : Bool) = true) := by
  have h := toggle_tracks_spec ⟨[⟨true, false, true⟩], [⟨true, true, true⟩]⟩
  exact ⟨(h.1 ⟨true, false, true⟩ [] rfl).1, (h.2 ⟨true, true, true⟩ [] rfl).2⟩

/-- C8: `switchCamera` is a total function — modelling that the source
never throws — and it leaves everything unchanged on a null stream, on a
stream without a video track, and on a video track without the
`_switchCamera` method; only a track exposing the method has the switch
requested (its facing flipped). -/
theorem switchCamera_spec (s : MediaStreamM) :
    switchCamera none = (none, false)
    ∧ (s.videoTracks = [] → switchCamera (some s) = (some s, false))
    ∧ (∀ t rest, s.videoTracks = t :: rest → t.hasSwitchCamera = false →
        switchCamera (some s) = (some s, false))
    ∧ (∀ t rest, s.videoTracks = t :: rest → t.hasSwitchCamera = true →
        switchCamera (some s)
          = (some { s with videoTracks := { t with facingFront := !t.facingFront } :: rest },
             true)) := by
  obtain ⟨aud, vid⟩ := s
  refine ⟨rfl, ?_, ?_, ?_⟩
  · intro h
    simp only [MediaStreamM.videoTracks] at h
    subst h
    rfl
  · intro t rest h hs
    simp only [MediaStreamM.videoTracks] at h
    subst h
    simp [switchCamera, hs]
  · intro t rest h hs
    simp only [MediaStreamM.videoTracks] at h
    subst h
    simp [switchCamera, hs]

/-- Witness for C8: no-op on a stream whose video track lacks the method,
switch requested on one that has it. -/
theorem switchCamera_spec_witness :
    switchCamera (some ⟨[], [⟨true, false, true⟩]⟩) = (some ⟨[], [⟨true, false, true⟩]⟩, false)
    ∧ switchCamera (some ⟨[], [⟨true, true, true⟩]⟩)
        = (some ⟨[], [⟨true, true, false⟩]⟩, true) := by
  exact ⟨((switchCamera_spec ⟨[], [⟨true, false, true⟩]⟩).2.2.1 ⟨true, false, true⟩ [] rfl rfl),
    ((switchCamera_spec ⟨[], [⟨true, true, true⟩]⟩).2.2.2 ⟨true, true, true⟩ [] rfl rfl)⟩

/-- C9: when the authenticated user or the local stream is missing (or,
for `joinCall`, the call id is empty), both operations throw immediately
with the guard message, return the store unchanged — no record created, no
answer set — and create no peer connection. -/
theorem precondition_guards_no_write (currentUser : Option String)
    (localStream : Option MediaStreamM) (offer answer : SessionDesc)
    (newCallId callId : String) (now : Int) (store : Store) :
    (currentUser = none ∨ localStream = none →
      createCall currentUser localStream offer newCallId now store
        = (store, none, .error "Missing local stream or user not authenticated"))
    ∧ (currentUser = none ∨ localStream = none ∨ callId = "" →
      joinCall currentUser localStream callId answer store
        = (store, none, .error "Missing call ID, local stream, or user not authenticated")) := by
  constructor
  · rintro (h | h)
    · subst h
      cases localStream <;> rfl
    · subst h
      cases currentUser <;> rfl
  · rintro (h | h | h)
    · subst h
      cases localStream <;> rfl
    · subst h
      cases currentUser <;> rfl
    · subst h
      cases localStream <;> cases currentUser <;> simp [joinCall]

/-- Witness for C9: unauthenticated createCall and empty-id joinCall on a
concrete store leave it untouched and report the guard errors. -/
theorem precondition_guards_no_write_witness :
    createCall none (some ⟨[], []⟩) ⟨"offer", "o"⟩ "c9" 0 [("c1", ⟨⟨"offer", "o"⟩, none, "u1", none, 0⟩)]
      = ([("c1", ⟨⟨"offer", "o"⟩, none, "u1", none, 0⟩)], none,
         .error "Missing local stream or user not authenticated")
    ∧ joinCall (some "u2") (some ⟨[], []⟩) "" ⟨"answer", "a"⟩ [("c1", ⟨⟨"offer", "o"⟩, none, "u1", none, 0⟩)]
      = ([("c1", ⟨⟨"offer", "o"⟩, none, "u1", none, 0⟩)], none,
         .error "Missing call ID, local stream, or user not authenticated") := by
  have h := precondition_guards_no_write none (some ⟨[], []⟩) ⟨"offer", "o"⟩ ⟨"answer", "a"⟩
    "c9" "" 0 [("c1", ⟨⟨"offer", "o"⟩, none, "u1", none, 0⟩)]
  have h2 := precondition_guards_no_write (some "u2") (some ⟨[], []⟩) ⟨"offer", "o"⟩ ⟨"answer", "a"⟩
    "c9" "" 0 [("c1", ⟨⟨"offer", "o"⟩, none, "u1", none, 0⟩)]
  exact ⟨h.1 (Or.inl rfl), h2.2 (Or.inr (Or.inr rfl))⟩

/-- C1 counterexample: on a channel whose record already carries the
answer of joiner1, a second joinCall by joiner2 does not fail — the update
is unconditional — and the stored answer and answeredBy become those of
joiner2, so the claimed AlreadyAnsweredError and the untouched stored
answer are both refuted. -/
theorem setAnswer_overwrite_counterexample :
    (joinCall (some "joiner2") (some ⟨[], []⟩) "c1" ⟨"answer", "sdp-a2"⟩
        [("c1", ⟨⟨"offer", "sdp-o"⟩, some ⟨"answer", "sdp-a1"⟩, "creator1", some "joiner1", 0⟩)]).2.2
      = .ok ()
    ∧ (lookupRecord
        (joinCall (some "joiner2") (some ⟨[], []⟩) "c1" ⟨"answer", "sdp-a2"⟩
          [("c1", ⟨⟨"offer", "sdp-o"⟩, some ⟨"answer", "sdp-a1"⟩, "creator1", some "joiner1", 0⟩)]).1
        "c1").map CallRecord.answer
      = some (some ⟨"answer", "sdp-a2"⟩)
    ∧ (⟨"answer", "sdp-a1"⟩ : SessionDesc) ≠ ⟨"answer", "sdp-a2"⟩ := by
  refine ⟨rfl, rfl, by decide⟩

/-- C1 as amended: `joinCall` never checks for an existing answer — the
`updateDoc` write is last-writer-wins.  On any store where the channel
resolves, a first setAnswer succeeds and stores its payload, and a second
setAnswer on the same channel also succeeds, the stored answer and
answeredBy then equalling the second (last) writer, not the first. -/
theorem setAnswer_last_writer_wins (store : Store) (callId : String) (record : CallRecord)
    (s1 s2 : MediaStreamM) (uid1 uid2 : String) (a1 a2 : SessionDesc)
    (hid : callId ≠ "") (hrec : lookupRecord store callId = some record) :
    (joinCall (some uid1) (some s1) callId a1 store).2.2 = .ok ()
    ∧ lookupRecord (joinCall (some uid1) (some s1) callId a1 store).1 callId
        = some { record with answer := some a1, answeredBy := some uid1 }
    ∧ (joinCall (some uid2) (some s2) callId a2
        (joinCall (some uid1) (some s1) callId a1 store).1).2.2 = .ok ()
    ∧ lookupRecord (joinCall (some uid2) (some s2) callId a2
        (joinCall (some uid1) (some s1) callId a1 store).1).1 callId
        = some { record with answer := some a2, answeredBy := some uid2 } := by
  have e1 : joinCall (some uid1) (some s1) callId a1 store
      = (updateRecord store callId (fun r => { r with answer := some a1, answeredBy := some uid1 }),
         some { localDescription := some a1, remoteDescription := some record.offer, closed := false },
         .ok ()) := by
    simp [joinCall, hid, hrec]
  have l1 : lookupRecord (joinCall (some uid1) (some s1) callId a1 store).1 callId
      = some { record with answer := some a1, answeredBy := some uid1 } := by
    rw [e1]
    simp [lookupRecord_update, hrec]
  refine ⟨by rw [e1], l1, ?_, ?_⟩
  · generalize hst : (joinCall (some uid1) (some s1) callId a1 store).1 = st1 at l1 ⊢
    simp [joinCall, hid, l1]
  · generalize hst : (joinCall (some uid1) (some s1) callId a1 store).1 = st1 at l1 ⊢
    simp [joinCall, hid, l1, lookupRecord_update]

/-- Witness for C1 as amended: two joins of the same fresh channel both
succeed and the surviving answer is the payload of the second. -/
theorem setAnswer_last_writer_wins_witness :
    (joinCall (some "u1") (some ⟨[], []⟩) "c1" ⟨"answer", "a1"⟩
        [("c1", ⟨⟨"offer", "o"⟩, none, "creator1", none, 0⟩)]).2.2 = .ok ()
    ∧ lookupRecord (joinCall (some "u2") (some ⟨[], []⟩) "c1" ⟨"answer", "a2"⟩
        (joinCall (some "u1") (some ⟨[], []⟩) "c1" ⟨"answer", "a1"⟩
          [("c1", ⟨⟨"offer", "o"⟩, none, "creator1", none, 0⟩)]).1).1 "c1"
      = some ⟨⟨"offer", "o"⟩, some ⟨"answer", "a2"⟩, "creator1", some "u2", 0⟩ := by
  have h := setAnswer_last_writer_wins
    [("c1", ⟨⟨"offer", "o"⟩, none, "creator1", none, 0⟩)] "c1"
    ⟨⟨"offer", "o"⟩, none, "creator1", none, 0⟩ ⟨[], []⟩ ⟨[], []⟩ "u1" "u2"
    ⟨"answer", "a1"⟩ ⟨"answer", "a2"⟩ (by decide) rfl
  exact ⟨h.1, h.2.2.2⟩

/-- C2 counterexample: under the caller-side listeners of `createCall`, a
candidate delivered before the answer is not queued and not applied after
the remote description is established — after the trace cand 7, answer,
cand 9 the remote description is set yet the applied list is empty and
both candidates are lost (their callback threw at `new RTCIceCandidate`
before `pc.addIceCandidate`), refuting queued-and-applied-exactly-once and
no-candidate-dropped at this concrete input. -/
theorem candidate_delivery_lost_counterexample :
    (callerRun ⟨false, [], []⟩ [.cand 7, .answer, .cand 9]).rd = true
    ∧ (callerRun ⟨false, [], []⟩ [.cand 7, .answer, .cand 9]).applied = []
    ∧ (callerRun ⟨false, [], []⟩ [.cand 7, .answer, .cand 9]).lost = [7, 9] :=
  ⟨rfl, rfl, rfl⟩

/-- C2 as amended: no remote ICE candidate is ever applied, and none is
queued.  Each candidate delivery evaluates `new RTCIceCandidate` first,
and `RTCIceCandidate` is neither imported by the module nor installed
globally (`registerGlobals` is never called), so the listener callback
throws before `pc.addIceCandidate`: on the caller side of `createCall`
every delivered candidate is lost in arrival order — before or after the
answer event sets the remote description (which itself still works, via
the imported `RTCSessionDescription`) — and on the joiner side of
`joinCall`, where the remote description is set before the listener is
attached, every delivered candidate is likewise lost. -/
theorem candidate_never_applied (es : List SigEvent) (cands : List Nat) :
    callerRun ⟨false, [], []⟩ es = ⟨hasAnswer es, [], candsAll es⟩
    ∧ joinerRun cands = ⟨true, [], cands⟩ := by
  constructor
  · simpa using callerRun_eq es false [] []
  · unfold joinerRun
    rw [callerRun_eq]
    simp [candsAll_map]

/-- C6: the automatic media-acquisition retry loop performs at most 3
total `setupLocalStream` attempts for any failure pattern, and when every
attempt fails it performs exactly 3 — after which the `retryCount < 3`
guard stops all further automatic retries — with each failure surfaced
through onError. -/
theorem media_retry_bounded (fails : Nat → Bool) :
    (retryRun fails).1 ≤ 3
    ∧ ((∀ n, fails n = true) → retryRun fails = (3, 3)) := by
  constructor
  · cases h0 : fails 0 <;> cases h1 : fails 1 <;> cases h2 : fails 2 <;>
      simp [retryRun, retryRunAux, h0, h1, h2]
  · intro h
    simp [retryRun, retryRunAux, h 0, h 1, h 2]

/-- Witness for C6: with acquisition failing every time, exactly 3
attempts happen and 3 errors are surfaced. -/
theorem media_retry_bounded_witness :
    (retryRun (fun _ => true)).1 ≤ 3 ∧ retryRun (fun _ => true) = (3, 3) :=
  ⟨(media_retry_bounded (fun _ => true)).1,
   (media_retry_bounded (fun _ => true)).2 (fun _ => rfl)⟩

/-- C10: `getCallHistory` never returns a record list — for every
authenticated user, every limit and every store it throws
`Failed to fetch call history`, because `limit(limit)` applies the numeric
parameter as a function inside the try block. -/
theorem getCallHistory_always_fails (uid : String) (lim : Nat) (store : Store) :
    getCallHistory (some uid) lim store = .error "Failed to fetch call history" :=
  rfl

end WebrtcHelper
